import Mathlib

/-!
Shallow embedding of the Citi Bike analytics dashboard
(`src/streamlit_app.py`): the filter-to-predicate builder, the SQL query
catalog, the metric derivation helpers, the insight bullet generator and
the per-render orchestration, together with proofs of the specification
claims about them.

Backend scalar values (the five AggregateRow kinds: int64, float64,
string, date, null) are modelled by `Scalar`; Python float64 is modelled
by `Rat` (no claim depends on binary rounding).  SQL NULL arriving in a
dataframe cell is modelled as Python `None` (`Scalar.null`), the
convention the source itself assumes in its `is None` checks.
-/

/-- Calendar date, as produced by `st.sidebar.date_input`. -/
structure CalDate where
  year : Int
  month : Int
  day : Int
deriving DecidableEq

/-- A value in a backend result cell: the five AggregateRow scalar kinds. -/
inductive Scalar where
  | int : Int → Scalar
  | float : Rat → Scalar
  | str : String → Scalar
  | date : CalDate → Scalar
  | null : Scalar
deriving DecidableEq

/-- Day count since 1970-01-01 of a civil date (proleptic Gregorian),
mirroring `pd.to_datetime(d) - pd.to_datetime(d')` day differences. -/
def toDays (d : CalDate) : Int :=
  let y : Int := if d.month ≤ 2 then d.year - 1 else d.year
  let era : Int := (if y ≥ 0 then y else y - 399) / 400
  let yoe : Int := y - era * 400
  let mp : Int := (d.month + 9) % 12
  let doy : Int := (153 * mp + 2) / 5 + d.day - 1
  let doe : Int := yoe * 365 + yoe / 4 - yoe / 100 + doy
  era * 146097 + doe - 719468

def natDigits (n : Nat) : String := String.mk (Nat.toDigits 10 n)

def intRepr (n : Int) : String :=
  (if n < 0 then "-" else "") ++ natDigits n.natAbs

def pad2 (n : Int) : String :=
  let s := natDigits n.natAbs
  if s.length < 2 then "0" ++ s else s

def pad4 (n : Int) : String :=
  let s := natDigits n.natAbs
  if s.length < 4 then String.mk (List.replicate (4 - s.length) '0') ++ s else s

/-- `str(date)` — ISO "YYYY-MM-DD" rendering of a date. -/
def isoStr (d : CalDate) : String :=
  pad4 d.year ++ "-" ++ pad2 d.month ++ "-" ++ pad2 d.day

/-- Insert a thousands separator every three digits, walking the reversed
digit list (`k` counts digits emitted since the last separator). -/
def commaRev : List Char → Nat → List Char
  | [], _ => []
  | c :: cs, k => if k = 3 then ',' :: c :: commaRev cs 1 else c :: commaRev cs (k + 1)

/-- Python `f"{n:,}"` — comma-grouped integer rendering. -/
def commaGroup (n : Int) : String :=
  (if n < 0 then "-" else "") ++
    String.mk (commaRev (Nat.toDigits 10 n.natAbs).reverse 0).reverse

/-- Exact rational addition, written with `Rat.divInt` so the kernel can
evaluate it (the core `Rat.add` is irreducible to the kernel); proved
equal to `+` below. -/
def rAdd (a b : Rat) : Rat :=
  Rat.divInt (a.num * (b.den : Int) + b.num * (a.den : Int)) ((a.den : Int) * (b.den : Int))

/-- Exact rational subtraction, kernel-evaluable; proved equal to `-`. -/
def rSub (a b : Rat) : Rat :=
  Rat.divInt (a.num * (b.den : Int) - b.num * (a.den : Int)) ((a.den : Int) * (b.den : Int))

/-- Exact rational multiplication, kernel-evaluable; proved equal to `*`. -/
def rMul (a b : Rat) : Rat :=
  Rat.divInt (a.num * b.num) ((a.den : Int) * (b.den : Int))

/-- Exact rational division (zero for a zero divisor, like `/`),
kernel-evaluable; proved equal to `/`. -/
def rDiv (a b : Rat) : Rat :=
  Rat.divInt (a.num * (b.den : Int)) ((a.den : Int) * b.num)

/-- Nearest integer, ties to even (the rounding used by `format`). -/
def roundHalfEven (q : Rat) : Int :=
  let f : Int := q.num.fdiv (q.den : Int)
  let r : Rat := rSub q (f : Rat)
  if r < mkRat 1 2 then f
  else if r > mkRat 1 2 then f + 1
  else if f % 2 = 0 then f else f + 1

/-- Python `f"{x:.1f}"` — one-decimal fixed-point rendering (decimal
half-even rounding; binary-double artifacts are not modelled). -/
def fmtOneDec (x : Rat) : String :=
  let t := roundHalfEven (rMul x 10)
  (if t < 0 then "-" else "") ++
    natDigits (t.natAbs / 10) ++ "." ++ natDigits (t.natAbs % 10)

/-- Integer-string parse: optional sign followed by at least one digit
(the decimal core of Python `int(str)`; `int("5.5")` fails). -/
def parseIntStr (s : String) : Option Int :=
  let core (ds : List Char) : Option Nat :=
    if ds ≠ [] ∧ ds.all Char.isDigit then
      some (ds.foldl (fun a c => a * 10 + (c.toNat - 48)) 0)
    else none
  match s.data with
  | '-' :: rest => (core rest).map (fun n => -(n : Int))
  | '+' :: rest => (core rest).map (fun n => (n : Int))
  | l => (core l).map (fun n => (n : Int))

/-- Decimal-string parse: optional sign, digits, optional fractional part
(the decimal core of Python `float(str)`). -/
def parseFloatStr (s : String) : Option Rat :=
  let digitsVal (ds : List Char) : Nat :=
    ds.foldl (fun a c => a * 10 + (c.toNat - 48)) 0
  let core (ds : List Char) : Option Rat :=
    match ds.splitOn '.' with
    | [w] =>
      if w ≠ [] ∧ w.all Char.isDigit then some ((digitsVal w : Int) : Rat) else none
    | [w, f] =>
      if (w ≠ [] ∨ f ≠ []) ∧ w.all Char.isDigit ∧ f.all Char.isDigit then
        some (rAdd (digitsVal w : Rat)
          (rDiv (digitsVal f : Rat) ((10 ^ f.length : Nat) : Rat)))
      else none
    | _ => none
  match s.data with
  | '-' :: rest => (core rest).map (fun q => -q)
  | '+' :: rest => (core rest).map (fun q => q)
  | l => (core l).map (fun q => q)

/-- Python `int(x)` over the five scalar kinds: identity on ints,
truncation toward zero on floats, decimal parse on strings, and a raised
exception (`Except.error`) on dates and `None`. -/
def pyInt (x : Scalar) : Except String Int :=
  match x with
  | .int n => .ok n
  | .float q => .ok (q.num / (q.den : Int))
  | .str s =>
    match parseIntStr s with
    | some n => .ok n
    | none => .error "ValueError"
  | .date _ => .error "TypeError"
  | .null => .error "TypeError"

/-- Python `float(x)` over the five scalar kinds. -/
def pyFloat (x : Scalar) : Except String Rat :=
  match x with
  | .int n => .ok (n : Rat)
  | .float q => .ok q
  | .str s =>
    match parseFloatStr s with
    | some q => .ok q
    | none => .error "ValueError"
  | .date _ => .error "TypeError"
  | .null => .error "TypeError"

/-- Python `str(x)` over the five scalar kinds (`str(None) = "None"`;
the exact repr of a non-integral float is elided as "num/den", a form
never reached by the dashboard's fallback paths). -/
def pyStr (x : Scalar) : String :=
  match x with
  | .int n => intRepr n
  | .float q => if q.den = 1 then intRepr q.num ++ ".0"
                else intRepr q.num ++ "/" ++ natDigits q.den
  | .str s => s
  | .date d => isoStr d
  | .null => "None"

/-- `fmt_int` (src/streamlit_app.py:19-23): try `f"{int(x):,}"`,
falling back to `str(x)` on any exception. -/
def fmt_int (x : Scalar) : String :=
  match pyInt x with
  | .ok n => commaGroup n
  | .error _ => pyStr x

/-- `fmt_seconds_to_min` (src/streamlit_app.py:25-29): try
`f"{(float(sec)/60):.1f} min"`, falling back to `str(sec)`. -/
def fmt_seconds_to_min (sec : Scalar) : String :=
  match pyFloat sec with
  | .ok q => fmtOneDec (rDiv q 60) ++ " min"
  | .error _ => pyStr sec

/-- `pct_change` (src/streamlit_app.py:31-39): convert both arguments
with `float`, return `None` on a conversion exception or a zero
denominator, else `(curr - prev) / prev`. -/
def pct_change (curr prev : Scalar) : Option Rat :=
  match pyFloat curr with
  | .error _ => none
  | .ok c =>
    match pyFloat prev with
    | .error _ => none
    | .ok p => if p = 0 then none else some (rDiv (rSub c p) p)

/-- The sidebar filter state for one render: the two dates, the option
universes returned by `get_distinct_values`, the multiselect selections
(each a sublist of its universe in the UI, unconstrained here), and the
user-chosen grain ("Daily" or "Monthly"). -/
structure FilterSpec where
  start_date : CalDate
  end_date : CalDate
  rider_types : List String
  bike_types : List String
  rider_filter : List String
  bike_filter : List String
  grain : String
deriving DecidableEq

/-- `(pd.to_datetime(end_date) - pd.to_datetime(start_date)).days`
(src/streamlit_app.py:68). -/
def days_selected (fs : FilterSpec) : Int :=
  toDays fs.end_date - toDays fs.start_date

/-- `default_grain = "Monthly" if days_selected > 45 else "Daily"`
(src/streamlit_app.py:69). -/
def default_grain (fs : FilterSpec) : String :=
  if days_selected fs > 45 then "Monthly" else "Daily"

def TABLE : String := "`dezoomcamp-citibike-free.marts.fact_trips`"

/-- The mandatory partition clause
`f"ride_date BETWEEN DATE('{start_date}') AND DATE('{end_date}')"`
(src/streamlit_app.py:101). -/
def dateClause (fs : FilterSpec) : String :=
  "ride_date BETWEEN DATE('" ++ (isoStr fs.start_date ++ ("') AND DATE('" ++
    (isoStr fs.end_date ++ "')")))

/-- `", ".join([f"'{x}'" for x in values])` — each literal wrapped in raw
single quotes with no escaping (src/streamlit_app.py:104,108). -/
def quotedList (values : List String) : String :=
  String.intercalate ", " (values.map (fun x => "'" ++ x ++ "'"))

/-- `f"member_casual IN ({rider_in})"` (src/streamlit_app.py:105). -/
def riderClause (fs : FilterSpec) : String :=
  "member_casual IN (" ++ (quotedList fs.rider_filter ++ ")")

/-- `f"rideable_type IN ({bike_in})"` (src/streamlit_app.py:109). -/
def bikeClause (fs : FilterSpec) : String :=
  "rideable_type IN (" ++ (quotedList fs.bike_filter ++ ")")

/-- `where_clauses` (src/streamlit_app.py:100-109): the date clause always,
then the rider membership clause iff the rider selection is nonempty
(Python truthiness of the list), then likewise for bikes. -/
def where_clauses (fs : FilterSpec) : List String :=
  [dateClause fs] ++
    (if fs.rider_filter.isEmpty then [] else [riderClause fs]) ++
    (if fs.bike_filter.isEmpty then [] else [bikeClause fs])

/-- `where_sql = " AND ".join(where_clauses)` (src/streamlit_app.py:111). -/
def where_sql (fs : FilterSpec) : String :=
  String.intercalate " AND " (where_clauses fs)

/-- `sql_kpis` (src/streamlit_app.py:116-130). -/
def sql_kpis (fs : FilterSpec) : String :=
  "\nSELECT\n  COUNT(*) AS trips,\n  AVG(ride_duration_sec) AS avg_duration_sec,\n  SAFE_DIVIDE(SUM(CASE WHEN member_casual = 'member' THEN 1 ELSE 0 END), COUNT(*)) AS member_share,\n  SAFE_DIVIDE(SUM(CASE WHEN LOWER(rideable_type) LIKE '%electric%' THEN 1 ELSE 0 END), COUNT(*)) AS electric_share,\n  (SELECT AS STRUCT rideable_type, COUNT(*) c\n   FROM " ++
    TABLE ++ "\n   WHERE " ++ where_sql fs ++
    "\n   GROUP BY rideable_type\n   ORDER BY c DESC\n   LIMIT 1) AS top_bike\nFROM " ++
    TABLE ++ "\nWHERE " ++ where_sql fs ++ "\n"

/-- `sql_mom` (src/streamlit_app.py:145-162).  Its WHERE condition is the
date-range clause alone, not `where_sql`. -/
def sql_mom (fs : FilterSpec) : String :=
  "\nWITH monthly AS (\n  SELECT\n    DATE_TRUNC(ride_date, MONTH) AS month,\n    COUNT(*) AS trips\n  FROM " ++
    TABLE ++ "\n  WHERE " ++ dateClause fs ++
    "\n  GROUP BY month\n),\nlast_two AS (\n  SELECT * FROM monthly ORDER BY month DESC LIMIT 2\n)\nSELECT\n  (SELECT month FROM last_two ORDER BY month DESC LIMIT 1) AS curr_month,\n  (SELECT trips FROM last_two ORDER BY month DESC LIMIT 1) AS curr_trips,\n  (SELECT month FROM last_two ORDER BY month DESC LIMIT 1 OFFSET 1) AS prev_month,\n  (SELECT trips FROM last_two ORDER BY month DESC LIMIT 1 OFFSET 1) AS prev_trips\n"

/-- `sql_cat` (src/streamlit_app.py:189-197). -/
def sql_cat (fs : FilterSpec) : String :=
  "\n    SELECT\n      member_casual,\n      COUNT(*) AS trip_count\n    FROM " ++
    TABLE ++ "\n    WHERE " ++ where_sql fs ++
    "\n    GROUP BY member_casual\n    ORDER BY trip_count DESC\n    "

/-- `sql_ts` (src/streamlit_app.py:212-231): daily or monthly grouping
depending on the selected grain. -/
def sql_ts (fs : FilterSpec) : String :=
  if fs.grain = "Daily" then
    "\n        SELECT\n          ride_date AS period,\n          COUNT(*) AS trip_count\n        FROM " ++
      TABLE ++ "\n        WHERE " ++ where_sql fs ++
      "\n        GROUP BY period\n        ORDER BY period\n        "
  else
    "\n        SELECT\n          DATE_TRUNC(ride_date, MONTH) AS period,\n          COUNT(*) AS trip_count\n        FROM " ++
      TABLE ++ "\n        WHERE " ++ where_sql fs ++
      "\n        GROUP BY period\n        ORDER BY period\n        "

/-- `sql_mix` (src/streamlit_app.py:252-261). -/
def sql_mix (fs : FilterSpec) : String :=
  "\nSELECT\n  DATE_TRUNC(ride_date, MONTH) AS month,\n  rideable_type,\n  COUNT(*) AS trip_count\nFROM " ++
    TABLE ++ "\nWHERE " ++ where_sql fs ++
    "\nGROUP BY month, rideable_type\nORDER BY month, rideable_type\n"

/-- `sql_weekday` (src/streamlit_app.py:282-294). -/
def sql_weekday (fs : FilterSpec) : String :=
  "\nSELECT\n  CASE\n    WHEN EXTRACT(DAYOFWEEK FROM ride_date) IN (1,7) THEN 'Weekend'\n    ELSE 'Weekday'\n  END AS day_type,\n  COUNT(*) AS trip_count,\n  ROUND(100 * COUNT(*) / SUM(COUNT(*)) OVER (), 2) AS pct_share\nFROM " ++
    TABLE ++ "\nWHERE " ++ where_sql fs ++
    "\nGROUP BY day_type\nORDER BY trip_count DESC\n"

/-- `sql_top_stations` (src/streamlit_app.py:313-323). -/
def sql_top_stations (fs : FilterSpec) : String :=
  "\nSELECT\n  start_station_name,\n  COUNT(*) AS trip_count\nFROM " ++
    TABLE ++ "\nWHERE " ++ where_sql fs ++
    "\n  AND start_station_name IS NOT NULL\nGROUP BY start_station_name\nORDER BY trip_count DESC\nLIMIT 10\n"

/-- `sql_insights` (src/streamlit_app.py:340-380). -/
def sql_insights (fs : FilterSpec) : String :=
  "\nWITH base AS (\n  SELECT\n    COUNT(*) AS trips,\n    AVG(ride_duration_sec) AS avg_dur,\n    SAFE_DIVIDE(SUM(CASE WHEN member_casual='member' THEN 1 ELSE 0 END), COUNT(*)) AS member_share\n  FROM " ++
    TABLE ++ "\n  WHERE " ++ where_sql fs ++
    "\n),\nbike_mix AS (\n  SELECT\n    rideable_type,\n    COUNT(*) AS trips\n  FROM " ++
    TABLE ++ "\n  WHERE " ++ where_sql fs ++
    "\n  GROUP BY rideable_type\n  ORDER BY trips DESC\n),\ntop_bike AS (\n  SELECT AS STRUCT rideable_type, trips\n  FROM bike_mix\n  LIMIT 1\n),\nweekend AS (\n  SELECT\n    SAFE_DIVIDE(\n      SUM(CASE WHEN EXTRACT(DAYOFWEEK FROM ride_date) IN (1,7) THEN 1 ELSE 0 END),\n      COUNT(*)\n    ) AS weekend_share\n  FROM " ++
    TABLE ++ "\n  WHERE " ++ where_sql fs ++
    "\n)\nSELECT\n  base.trips,\n  base.avg_dur,\n  base.member_share,\n  weekend.weekend_share,\n  top_bike.rideable_type AS top_bike_type,\n  top_bike.trips AS top_bike_trips\nFROM base, weekend, top_bike\n"

/-- `sql_trend` (src/streamlit_app.py:408-418).  Like `sql_mom`, its
WHERE condition is the date-range clause alone. -/
def sql_trend (fs : FilterSpec) : String :=
  "\n    WITH monthly AS (\n      SELECT DATE_TRUNC(ride_date, MONTH) AS month, COUNT(*) AS trips\n      FROM " ++
    TABLE ++ "\n      WHERE " ++ dateClause fs ++
    "\n      GROUP BY month\n    )\n    SELECT\n      (SELECT trips FROM monthly ORDER BY month ASC LIMIT 1) AS first_trips,\n      (SELECT trips FROM monthly ORDER BY month DESC LIMIT 1) AS last_trips\n    "

/-- `f"Total trips in selected period: **{trips:,}**."`
(src/streamlit_app.py:391). -/
def mkTotal (trips : Int) : String :=
  "Total trips in selected period: **" ++ (commaGroup trips ++ "**.")

/-- `f"Average trip duration: **{avg_dur_min:.1f} minutes**."`
(src/streamlit_app.py:395). -/
def mkAvg (v : Rat) : String :=
  "Average trip duration: **" ++ (fmtOneDec v ++ " minutes**.")

/-- `f"Rider mix: **{member_share:.1f}% members** (and {100-member_share:.1f}% casual)."`
(src/streamlit_app.py:398). -/
def mkRider (m : Rat) : String :=
  "Rider mix: **" ++ (fmtOneDec m ++ ("% members** (and " ++
    (fmtOneDec (rSub 100 m) ++ "% casual).")))

/-- `f"Trip timing: **{weekend_share:.1f}%** of trips occur on weekends."`
(src/streamlit_app.py:401). -/
def mkWeekend (w : Rat) : String :=
  "Trip timing: **" ++ (fmtOneDec w ++ "%** of trips occur on weekends.")

/-- `f"Most used bike type: **{top_bike_type}** with **{top_bike_trips:,}** trips."`
(src/streamlit_app.py:404). -/
def mkTop (ty : String) (n : Int) : String :=
  "Most used bike type: **" ++ (ty ++ ("** with **" ++ (commaGroup n ++ "** trips.")))

/-- `"increased" if delta > 0 else "decreased" if delta < 0 else "stayed flat"`
(src/streamlit_app.py:424). -/
def dirOf (delta : Int) : String :=
  if delta > 0 then "increased" else if delta < 0 then "decreased" else "stayed flat"

/-- `f"Overall trend: trips **{direction}** from first to last month (Δ {delta:,})."`
(src/streamlit_app.py:425). -/
def mkTrendB (delta : Int) : String :=
  "Overall trend: trips **" ++ (dirOf delta ++ ("** from first to last month (Δ " ++
    (commaGroup delta ++ ").")))

/-- The single row of `sql_insights`, typed by the query's result schema. -/
structure InsRow where
  trips : Int
  avg_dur : Option Rat
  member_share : Option Rat
  weekend_share : Option Rat
  top_bike_type : Option String
  top_bike_trips : Option Int
deriving DecidableEq

/-- The local metric variables derived at src/streamlit_app.py:383-388. -/
structure Derived where
  trips : Int
  avg_dur_min : Option Rat
  member_share : Option Rat
  weekend_share : Option Rat
  top_bike_type : Option String
  top_bike_trips : Option Int
deriving DecidableEq

/-- src/streamlit_app.py:383-388: seconds to minutes and shares to
percentages, each guarded by `is not None`. -/
def deriveInsights (ins : InsRow) : Derived :=
  { trips := ins.trips
    avg_dur_min := ins.avg_dur.map (fun q => rDiv q 60)
    member_share := ins.member_share.map (fun q => rMul q 100)
    weekend_share := ins.weekend_share.map (fun q => rMul q 100)
    top_bike_type := ins.top_bike_type
    top_bike_trips := ins.top_bike_trips }

/-- `if x is not None: bullets.append(f(x))` — the conditional append
used for each gated bullet. -/
def optBullet (f : Rat → String) : Option Rat → List String
  | some v => [f v]
  | none => []

/-- `if top_bike_type is not None and top_bike_trips is not None: append`
(src/streamlit_app.py:403-404). -/
def topBullet : Option String → Option Int → List String
  | some ty, some n => [mkTop ty n]
  | _, _ => []

/-- The first five bullets (src/streamlit_app.py:390-404): total always,
then average duration, rider mix, weekend timing and top bike type, each
appended only when its inputs are non-None. -/
def baseBullets (d : Derived) : List String :=
  [mkTotal d.trips] ++ optBullet mkAvg d.avg_dur_min ++
    optBullet mkRider d.member_share ++ optBullet mkWeekend d.weekend_share ++
    topBullet d.top_bike_type d.top_bike_trips

/-- The single row of `sql_trend`: the two scalar-subquery counts, each
NULL when the month CTE is empty. -/
structure TrendRow where
  first_trips : Option Int
  last_trips : Option Int
deriving DecidableEq

/-- The trend bullet (src/streamlit_app.py:407-425): produced only when
the selected range spans at least 60 days and both month counts are
non-None; its direction comes from the sign of last minus first. -/
def trendBullet (fs : FilterSpec) (firstT lastT : Option Int) : Option String :=
  if days_selected fs ≥ 60 then
    match firstT, lastT with
    | some f, some l => some (mkTrendB (l - f))
    | _, _ => none
  else none

/-- The full insight bullet list for one render
(src/streamlit_app.py:390-427). -/
def bullets (fs : FilterSpec) (d : Derived) (firstT lastT : Option Int) : List String :=
  baseBullets d ++ (trendBullet fs firstT lastT).toList

/-- The nested STRUCT in the KPI row (`top_bike.rideable_type`, `top_bike.c`). -/
structure TopBike where
  rideable_type : Option String
  c : Int
deriving DecidableEq

/-- The single row of `sql_kpis`, typed by the query's result schema
(SAFE_DIVIDE and AVG are nullable; the scalar-subquery STRUCT is None
when its subquery is empty). -/
structure KpiRow where
  trips : Int
  avg_duration_sec : Option Rat
  member_share : Option Rat
  electric_share : Option Rat
  top_bike : Option TopBike
deriving DecidableEq

/-- The single row of `sql_mom` (all four scalar subqueries nullable). -/
structure MomRow where
  curr_month : Option CalDate
  curr_trips : Option Int
  prev_month : Option CalDate
  prev_trips : Option Int
deriving DecidableEq

/-- A row of `sql_cat`. -/
structure CatRow where
  member_casual : Option String
  trip_count : Int
deriving DecidableEq

/-- A row of `sql_ts`. -/
structure TsRow where
  period : CalDate
  trip_count : Int
deriving DecidableEq

/-- A row of `sql_mix`. -/
structure MixRow where
  month : CalDate
  rideable_type : Option String
  trip_count : Int
deriving DecidableEq

/-- A row of `sql_weekday`. -/
structure WkRow where
  day_type : String
  trip_count : Int
  pct_share : Rat
deriving DecidableEq

/-- A row of `sql_top_stations` (NULL station names are excluded by the
query itself). -/
structure StationRow where
  start_station_name : String
  trip_count : Int
deriving DecidableEq

/-- The external query backend for one render: the result (or raised
error) of `query_bq` on each catalog query's text.  `query_bq` itself
(src/streamlit_app.py:15-17) adds no error handling, so an error here
propagates into the stage that issued the query. -/
structure Backend where
  kpis : Except String (List KpiRow)
  mom : Except String (List MomRow)
  cat : Except String (List CatRow)
  ts : Except String (List TsRow)
  mix : Except String (List MixRow)
  weekday : Except String (List WkRow)
  top : Except String (List StationRow)
  insights : Except String (List InsRow)
  trend : Except String (List TrendRow)

/-- What the presentation sink receives for one view: the section's name
and the rendered strings (metric lines, table rows or info text). -/
structure View where
  name : String
  items : List String
deriving DecidableEq

/-- `.iloc[0]`: first row, raising IndexError on an empty frame. -/
def iloc0 {α : Type} (rows : List α) : Except String α :=
  match rows with
  | [] => .error "IndexError"
  | r :: _ => .ok r

def optIntScalar : Option Int → Scalar
  | none => .null
  | some n => .int n

def optRatScalar : Option Rat → Scalar
  | none => .null
  | some q => .float q

def optStrScalar : Option String → Scalar
  | none => .null
  | some s => .str s

/-- The KPI row of metrics (src/streamlit_app.py:131-140).  The member
and electric shares go through a bare `float(...)`, which raises on a
None cell; the other three metrics are exception-safe. -/
def stageKpi (b : Backend) : Except String View := do
  let rows ← b.kpis
  let kpi ← iloc0 rows
  let m1 := "Total trips: " ++ fmt_int (.int kpi.trips)
  let m2 := "Avg duration: " ++ fmt_seconds_to_min (optRatScalar kpi.avg_duration_sec)
  let ms ← pyFloat (optRatScalar kpi.member_share)
  let m3 := "Member share: " ++ fmtOneDec (rMul ms 100) ++ "%"
  let es ← pyFloat (optRatScalar kpi.electric_share)
  let m4 := "Electric share: " ++ fmtOneDec (rMul es 100) ++ "%"
  let tbt : String :=
    match kpi.top_bike with
    | some t => pyStr (optStrScalar t.rideable_type)
    | none => "N/A"
  let tbc : Int :=
    match kpi.top_bike with
    | some t => t.c
    | none => 0
  let m5 := "Top bike type: " ++ tbt ++ " (" ++ fmt_int (.int tbc) ++ ")"
  pure ⟨"kpis", [m1, m2, m3, m4, m5]⟩

/-- The month-over-month metric (src/streamlit_app.py:163-177): "N/A"
when the frame is empty or the previous month's count is None, else the
`pct_change` percentage plus a raw trip delta (whose `int(...)` raises
if a remaining cell is None). -/
def stageMom (b : Backend) : Except String View := do
  let rows ← b.mom
  match rows with
  | [] => pure ⟨"mom", ["MoM change (trips): N/A"]⟩
  | row :: _ =>
    if row.prev_trips = none then
      pure ⟨"mom", ["MoM change (trips): N/A"]⟩
    else do
      let mom := pct_change (optIntScalar row.curr_trips) (optIntScalar row.prev_trips)
      let momStr := match mom with
        | some m => fmtOneDec (rMul m 100) ++ "%"
        | none => "N/A"
      let c ← pyFloat (optIntScalar row.curr_trips)
      let p ← pyFloat (optIntScalar row.prev_trips)
      let d := rSub c p
      let delta := commaGroup (d.num / (d.den : Int)) ++ " trips"
      pure ⟨"mom", ["MoM change (trips): " ++ momStr ++ " (" ++ delta ++ ")"]⟩

/-- The rider-type breakdown (src/streamlit_app.py:186-205): an info
message on an empty frame, else the table with comma-grouped counts. -/
def stageCat (b : Backend) : Except String View := do
  let rows ← b.cat
  if rows.isEmpty then
    pure ⟨"cat", ["No data for the selected filters."]⟩
  else
    pure ⟨"cat", rows.map (fun r =>
      pyStr (optStrScalar r.member_casual) ++ ": " ++ fmt_int (.int r.trip_count))⟩

/-- The time series (src/streamlit_app.py:207-242). -/
def stageTs (fs : FilterSpec) (b : Backend) : Except String View := do
  let rows ← b.ts
  let name := if fs.grain = "Daily" then "Trips Over Time (Daily)"
              else "Trips Over Time (Monthly)"
  if rows.isEmpty then
    pure ⟨name, ["No data for the selected filters."]⟩
  else
    pure ⟨name, rows.map (fun r =>
      isoStr r.period ++ ": " ++ fmt_int (.int r.trip_count))⟩

/-- The bike-type mix over time (src/streamlit_app.py:246-273). -/
def stageMix (b : Backend) : Except String View := do
  let rows ← b.mix
  if rows.isEmpty then
    pure ⟨"mix", ["No data for the selected filters."]⟩
  else
    pure ⟨"mix", rows.map (fun r =>
      isoStr r.month ++ " " ++ pyStr (optStrScalar r.rideable_type) ++ ": " ++
        fmt_int (.int r.trip_count))⟩

/-- The weekday/weekend split (src/streamlit_app.py:277-304). -/
def stageWeekday (b : Backend) : Except String View := do
  let rows ← b.weekday
  if rows.isEmpty then
    pure ⟨"weekday", ["No data for the selected filters."]⟩
  else
    pure ⟨"weekday", rows.map (fun r =>
      r.day_type ++ ": " ++ commaGroup r.trip_count)⟩

/-- The top start stations table (src/streamlit_app.py:308-331). -/
def stageTop (b : Backend) : Except String View := do
  let rows ← b.top
  if rows.isEmpty then
    pure ⟨"Top Start Stations", ["No station data for the selected filters."]⟩
  else
    pure ⟨"Top Start Stations", rows.map (fun r =>
      r.start_station_name ++ ": " ++ fmt_int (.int r.trip_count))⟩

/-- The insights box (src/streamlit_app.py:335-427): take the single
insight row (`.iloc[0]` raises on an empty frame), derive the metrics,
and — only when the range spans at least 60 days — run the trend query
and append its bullet. -/
def stageInsights (fs : FilterSpec) (b : Backend) : Except String View := do
  let rows ← b.insights
  let ins ← iloc0 rows
  let d := deriveInsights ins
  if days_selected fs ≥ 60 then do
    let trows ← b.trend
    let t ← iloc0 trows
    pure ⟨"insights", bullets fs d t.first_trips t.last_trips⟩
  else
    pure ⟨"insights", baseBullets d⟩

/-- The outcome of one script run: all views rendered; or the views
rendered before an uncaught exception, plus that exception; or a halt at
input validation (`st.stop`). -/
inductive RenderResult where
  | ok : List View → RenderResult
  | failed : List View → String → RenderResult
  | halted : String → RenderResult
deriving DecidableEq

/-- Streamlit renders incrementally: each succeeding section is handed
to the sink, and the first uncaught exception stops the script there. -/
def runStages (acc : List View) : List (Except String View) → RenderResult
  | [] => .ok acc
  | .ok v :: rest => runStages (acc ++ [v]) rest
  | .error e :: _ => .failed acc e

/-- One full render (the whole script, src/streamlit_app.py:56-427):
date validation first, then the eight sections in source order. -/
def renderApp (fs : FilterSpec) (b : Backend) : RenderResult :=
  if days_selected fs < 0 then
    .halted "Start date must be before end date."
  else
    runStages []
      [stageKpi b, stageMom b, stageCat b, stageTs fs b, stageMix b,
       stageWeekday b, stageTop b, stageInsights fs b]

/-- `true` exactly on a render in which no exception escaped. -/
def renderOk : RenderResult → Bool
  | .ok _ => true
  | _ => false

/-! ### Auxiliary definitions used by the claim statements -/

/-- The first `n` characters of a string, used to classify which clause
or bullet template a string was built from. -/
def tagN (n : Nat) (s : String) : List Char := s.data.take n

/-- `needle` occurs as a contiguous substring of `hay`. -/
def occursIn (needle hay : String) : Prop := needle.data <:+: hay.data

/-- The scalar is one of the kinds the claim quantifies over: an int64,
a float64, or NULL. -/
def numOrNull (x : Scalar) : Prop :=
  x = .null ∨ (∃ n, x = .int n) ∨ (∃ q, x = .float q)

/-- The numeric value of an int64 or float64 scalar. -/
def asRat : Scalar → Option Rat
  | .int n => some (n : Rat)
  | .float q => some q
  | _ => none

/-- The two-character tags of the six bullet templates, in emission
order: total, average duration, rider mix, weekend timing, top bike
type, trend. -/
def bulletTags : List (List Char) :=
  ["To".data, "Av".data, "Ri".data, "Tr".data, "Mo".data, "Ov".data]

/-- `fs` with both categorical selections (and universes) cleared. -/
def noCatFilters (fs : FilterSpec) : FilterSpec :=
  { fs with rider_types := [], bike_types := [], rider_filter := [], bike_filter := [] }

/-! ### Concrete fixtures used by witnesses and counterexamples -/

def fs44 : FilterSpec :=
  ⟨⟨2024, 1, 1⟩, ⟨2024, 2, 14⟩, ["casual", "member"], ["classic_bike", "electric_bike"],
   ["casual", "member"], ["classic_bike", "electric_bike"], "Daily"⟩

def fs46 : FilterSpec :=
  ⟨⟨2024, 1, 1⟩, ⟨2024, 2, 16⟩, ["casual", "member"], ["classic_bike", "electric_bike"],
   ["casual", "member"], ["classic_bike", "electric_bike"], "Monthly"⟩

def fs59 : FilterSpec :=
  ⟨⟨2024, 1, 1⟩, ⟨2024, 2, 29⟩, ["casual", "member"], ["classic_bike", "electric_bike"],
   [], [], "Monthly"⟩

def fs60 : FilterSpec :=
  ⟨⟨2024, 1, 1⟩, ⟨2024, 3, 1⟩, ["casual", "member"], ["classic_bike", "electric_bike"],
   [], [], "Monthly"⟩

/-- One selected rider value that itself contains quote characters. -/
def fsInjOne : FilterSpec :=
  ⟨⟨2024, 1, 1⟩, ⟨2024, 1, 31⟩, ["a", "b"], [], ["a', 'b"], [], "Daily"⟩

/-- Two plain selected rider values. -/
def fsInjTwo : FilterSpec :=
  ⟨⟨2024, 1, 1⟩, ⟨2024, 1, 31⟩, ["a", "b"], [], ["a", "b"], [], "Daily"⟩

/-- A spec with one rider type selected out of a two-value universe. -/
def fsSel : FilterSpec :=
  ⟨⟨2024, 1, 1⟩, ⟨2024, 1, 31⟩, ["casual", "member"], ["classic_bike", "electric_bike"],
   ["casual"], [], "Daily"⟩

/-- `fsSel` with the rider selection cleared. -/
def fsNoSel : FilterSpec :=
  ⟨⟨2024, 1, 1⟩, ⟨2024, 1, 31⟩, ["casual", "member"], ["classic_bike", "electric_bike"],
   [], [], "Daily"⟩

/-- A spec whose rider selection equals the full universe (the sidebar
default). -/
def fsFull : FilterSpec :=
  ⟨⟨2024, 1, 1⟩, ⟨2024, 1, 31⟩, ["casual", "member"], [],
   ["casual", "member"], [], "Daily"⟩

def fs0 : FilterSpec :=
  ⟨⟨2024, 1, 1⟩, ⟨2024, 1, 31⟩, ["casual", "member"], ["classic_bike", "electric_bike"],
   [], [], "Daily"⟩

/-- A healthy backend for `fs0`, except that the top-stations query
raises "boom". -/
def b0 : Backend where
  kpis := .ok [⟨1000, some 900, some (Rat.divInt 6 10), some (Rat.divInt 2 10),
    some ⟨some "electric_bike", 700⟩⟩]
  mom := .ok [⟨some ⟨2024, 1, 1⟩, some 500, some ⟨2023, 12, 1⟩, some 400⟩]
  cat := .ok [⟨some "member", 600⟩, ⟨some "casual", 400⟩]
  ts := .ok [⟨⟨2024, 1, 1⟩, 1000⟩]
  mix := .ok [⟨⟨2024, 1, 1⟩, some "electric_bike", 700⟩]
  weekday := .ok [⟨"Weekday", 800, 80⟩, ⟨"Weekend", 200, 20⟩]
  top := .error "boom"
  insights := .ok [⟨1000, some 900, some (Rat.divInt 6 10), some (Rat.divInt 25 100),
    some "electric_bike", some 700⟩]
  trend := .ok []

def v1k : View := match stageKpi b0 with | .ok v => v | .error _ => ⟨"", []⟩
def v2k : View := match stageMom b0 with | .ok v => v | .error _ => ⟨"", []⟩
def v3k : View := match stageCat b0 with | .ok v => v | .error _ => ⟨"", []⟩
def v4k : View := match stageTs fs0 b0 with | .ok v => v | .error _ => ⟨"", []⟩
def v5k : View := match stageMix b0 with | .ok v => v | .error _ => ⟨"", []⟩
def v6k : View := match stageWeekday b0 with | .ok v => v | .error _ => ⟨"", []⟩

def fsZero : FilterSpec :=
  ⟨⟨2024, 1, 1⟩, ⟨2024, 1, 31⟩, ["casual", "member"], ["classic_bike", "electric_bike"],
   [], [], "Daily"⟩

/-- The backend a zero-matching-trips render produces: the KPI aggregate
row exists but its SAFE_DIVIDE shares and AVG are NULL and its top-bike
scalar subquery is NULL; every grouped query returns no rows, and the
insights query returns no rows (its `top_bike` CTE is empty, emptying
the cross join). -/
def bZero : Backend where
  kpis := .ok [⟨0, none, none, none, none⟩]
  mom := .ok [⟨none, none, none, none⟩]
  cat := .ok []
  ts := .ok []
  mix := .ok []
  weekday := .ok []
  top := .ok []
  insights := .ok []
  trend := .ok []

/-! ### Helper lemmas: rational arithmetic bridges -/

theorem rAdd_eq (a b : Rat) : rAdd a b = a + b := by
  have ha : ((a.den : ℚ)) ≠ 0 := by
    exact_mod_cast (Nat.cast_pos.mpr a.den_pos).ne'
  have hb : ((b.den : ℚ)) ≠ 0 := by
    exact_mod_cast (Nat.cast_pos.mpr b.den_pos).ne'
  unfold rAdd
  rw [Rat.divInt_eq_div]
  push_cast
  conv_rhs => rw [← Rat.num_div_den a, ← Rat.num_div_den b]
  rw [div_add_div _ _ ha hb]
  ring_nf

theorem rSub_eq (a b : Rat) : rSub a b = a - b := by
  have ha : ((a.den : ℚ)) ≠ 0 := by
    exact_mod_cast (Nat.cast_pos.mpr a.den_pos).ne'
  have hb : ((b.den : ℚ)) ≠ 0 := by
    exact_mod_cast (Nat.cast_pos.mpr b.den_pos).ne'
  unfold rSub
  rw [Rat.divInt_eq_div]
  push_cast
  conv_rhs => rw [← Rat.num_div_den a, ← Rat.num_div_den b]
  rw [div_sub_div _ _ ha hb]
  ring_nf

theorem rMul_eq (a b : Rat) : rMul a b = a * b := by
  unfold rMul
  rw [Rat.divInt_eq_div]
  push_cast
  conv_rhs => rw [← Rat.num_div_den a, ← Rat.num_div_den b]
  rw [div_mul_div_comm]

theorem rDiv_eq (a b : Rat) : rDiv a b = a / b := by
  by_cases hb : b = 0
  · subst hb
    unfold rDiv
    simp
  · have ha : ((a.den : ℚ)) ≠ 0 := by
      exact_mod_cast (Nat.cast_pos.mpr a.den_pos).ne'
    have hbd : ((b.den : ℚ)) ≠ 0 := by
      exact_mod_cast (Nat.cast_pos.mpr b.den_pos).ne'
    have hbn : ((b.num : ℚ)) ≠ 0 := by
      exact_mod_cast Rat.num_ne_zero.mpr hb
    unfold rDiv
    rw [Rat.divInt_eq_div]
    push_cast
    rw [div_eq_div_iff (mul_ne_zero ha hbn) hb]
    have hA : ((a.num : ℚ)) = a * a.den := (div_eq_iff ha).mp (Rat.num_div_den a)
    have hB : ((b.num : ℚ)) = b * b.den := (div_eq_iff hbd).mp (Rat.num_div_den b)
    rw [hA, hB]
    ring

/-! ### Helper lemmas: string prefixes and substrings -/

theorem take_append_left {α : Type} :
    ∀ (n : Nat) (l₁ l₂ : List α), n ≤ l₁.length → (l₁ ++ l₂).take n = l₁.take n
  | 0, _, _, _ => by simp
  | n + 1, [], _, h => by simp at h
  | n + 1, a :: l₁, l₂, h => by
    simp only [List.cons_append, List.take_succ_cons]
    rw [take_append_left n l₁ l₂ (by simpa using h)]

theorem tagN_append_left (n : Nat) (a b : String) (h : n ≤ a.data.length) :
    tagN n (a ++ b) = tagN n a := by
  unfold tagN
  rw [String.data_append]
  exact take_append_left n a.data b.data h

theorem two_le_append (a b : String) (h : 2 ≤ a.data.length) :
    2 ≤ (a ++ b).data.length := by
  rw [String.data_append, List.length_append]
  omega

theorem occursIn_self (s : String) : occursIn s s := ⟨[], [], by simp⟩

theorem occursIn_appendL {s a : String} (b : String) (h : occursIn s a) :
    occursIn s (a ++ b) := by
  obtain ⟨pre, suf, hh⟩ := h
  exact ⟨pre, suf ++ b.data, by rw [String.data_append, ← hh]; simp⟩

theorem occursIn_appendR {s b : String} (a : String) (h : occursIn s b) :
    occursIn s (a ++ b) := by
  obtain ⟨pre, suf, hh⟩ := h
  exact ⟨a.data ++ pre, suf, by rw [String.data_append, ← hh]; simp⟩

/-! ### C7: default grain from range length -/

/-- C7: the default time grain is a function of the selected range length
alone — strictly more than 45 days gives "Monthly", anything else gives
"Daily"; in particular 44 days gives "Daily" and 46 days "Monthly". -/
theorem default_grain_by_range_length (fs : FilterSpec) :
    (default_grain fs = "Monthly" ↔ days_selected fs > 45) ∧
    (default_grain fs = "Daily" ↔ ¬days_selected fs > 45) ∧
    (∀ fs' : FilterSpec, days_selected fs' = days_selected fs →
      default_grain fs' = default_grain fs) ∧
    (days_selected fs = 44 → default_grain fs = "Daily") ∧
    (days_selected fs = 46 → default_grain fs = "Monthly") := by
  by_cases h : days_selected fs > 45
  · refine ⟨?_, ?_, ?_, ?_, ?_⟩
    · simp [default_grain, h]
    · simp [default_grain, h]
    · intro fs' he; simp [default_grain, he, h]
    · intro h44; omega
    · intro _; simp [default_grain, h]
  · refine ⟨?_, ?_, ?_, ?_, ?_⟩
    · simp [default_grain, h]
    · simp [default_grain, h]
    · intro fs' he; simp [default_grain, he, h]
    · intro _; simp [default_grain, h]
    · intro h46; omega

/-- C7 witness: concrete 44-day and 46-day ranges. -/
theorem default_grain_witness :
    days_selected fs44 = 44 ∧ default_grain fs44 = "Daily" ∧
    days_selected fs46 = 46 ∧ default_grain fs46 = "Monthly" :=
  ⟨by decide, (default_grain_by_range_length fs44).2.2.2.1 (by decide),
   by decide, (default_grain_by_range_length fs46).2.2.2.2 (by decide)⟩

/-! ### C8: pct_change -/

/-- C8: over numeric-or-null inputs, `pct_change` is `None` (a first-class
undefined value distinct from zero) exactly when `prev` is null or zero or
`curr` is null, and otherwise equals `(curr - prev) / prev`. -/
theorem pct_change_spec (curr prev : Scalar)
    (hc : numOrNull curr) (hp : numOrNull prev) :
    (pct_change curr prev = none ↔
      (prev = .null ∨ asRat prev = some 0 ∨ curr = .null)) ∧
    (∀ c p : Rat, asRat curr = some c → asRat prev = some p → p ≠ 0 →
      pct_change curr prev = some ((c - p) / p)) := by
  rcases hc with rfl | ⟨cn, rfl⟩ | ⟨cq, rfl⟩ <;>
    rcases hp with rfl | ⟨pn, rfl⟩ | ⟨pq, rfl⟩ <;>
      constructor <;> simp [pct_change, pyFloat, asRat, rSub_eq, rDiv_eq]

/-- C8 witness: `pct_change(150, 100) = 0.5` and `pct_change(0, 0)` is
undefined. -/
theorem pct_change_witness :
    pct_change (.int 150) (.int 100) = some ((1 : Rat) / 2) ∧
    pct_change (.int 0) (.int 0) = none := by
  constructor
  · have h := (pct_change_spec (.int 150) (.int 100)
      (Or.inr (Or.inl ⟨150, rfl⟩)) (Or.inr (Or.inl ⟨100, rfl⟩))).2
      150 100 (by norm_num [asRat]) (by norm_num [asRat]) (by norm_num)
    rw [h]; norm_num
  · decide

/-! ### C10: totality of the formatting helpers -/

/-- C10: both formatting helpers are total — when the `int`/`float`
conversion succeeds they render the number (comma-grouped integer, resp.
one-decimal minutes), and on any conversion exception they fall back to
the input's string form; no input of any scalar kind raises. -/
theorem fmt_helpers_total (x : Scalar) :
    ((∃ n, pyInt x = .ok n ∧ fmt_int x = commaGroup n) ∨
      ((∀ n, pyInt x ≠ .ok n) ∧ fmt_int x = pyStr x)) ∧
    ((∃ q, pyFloat x = .ok q ∧ fmt_seconds_to_min x = fmtOneDec (rDiv q 60) ++ " min") ∨
      ((∀ q, pyFloat x ≠ .ok q) ∧ fmt_seconds_to_min x = pyStr x)) := by
  constructor
  · cases hx : pyInt x with
    | ok n => exact Or.inl ⟨n, rfl, by simp [fmt_int, hx]⟩
    | error e =>
      exact Or.inr ⟨fun n h => by simp [hx] at h, by simp [fmt_int, hx]⟩
  · cases hx : pyFloat x with
    | ok q => exact Or.inl ⟨q, rfl, by simp [fmt_seconds_to_min, hx]⟩
    | error e =>
      exact Or.inr ⟨fun q h => by simp [hx] at h, by simp [fmt_seconds_to_min, hx]⟩

/-- C10 witness: concrete evaluations on an int, a null and a plain
string, through the theorem's branches. -/
theorem fmt_helpers_witness :
    fmt_int (.int 1234567) = "1,234,567" ∧ fmt_int .null = "None" ∧
    fmt_seconds_to_min (.int 900) = "15.0 min" ∧
    fmt_seconds_to_min (.str "n/a") = "n/a" := by
  rcases (fmt_helpers_total Scalar.null).1 with ⟨n, hn, _⟩ | ⟨_, he⟩
  · simp [pyInt] at hn
  · exact ⟨by decide, he.trans (by decide), by decide, by decide⟩

/-! ### C1: predicate injection safety -/

/-- C1 (refuting the claimed injection safety): the single selected rider
value `a', 'b` — quote characters included — produces byte-identical
`where_clauses` to selecting the two plain values `a` and `b`, so a
selected value can rewrite the membership clause's logical structure. -/
theorem predicate_injection_collision :
    where_clauses fsInjOne = where_clauses fsInjTwo ∧
    fsInjOne.rider_filter ≠ fsInjTwo.rider_filter ∧
    fsInjOne.rider_filter.length = 1 ∧ fsInjTwo.rider_filter.length = 2 ∧
    riderClause fsInjOne = "member_casual IN ('a', 'b')" := by decide

/-! ### C6: the trend bullet -/

/-- C6: the trend bullet is produced iff the range spans at least 60 days
and both month counts are defined; when produced, it reports direction
"increased"/"decreased"/"stayed flat" by the sign of last minus first;
at 59 days it is never produced. -/
theorem trend_bullet_spec (fs : FilterSpec) (firstT lastT : Option Int) :
    ((trendBullet fs firstT lastT).isSome ↔
      (days_selected fs ≥ 60 ∧ firstT.isSome ∧ lastT.isSome)) ∧
    (∀ f l : Int, firstT = some f → lastT = some l → days_selected fs ≥ 60 →
      trendBullet fs firstT lastT = some (mkTrendB (l - f))) ∧
    (∀ d : Int, (d > 0 → dirOf d = "increased") ∧ (d < 0 → dirOf d = "decreased") ∧
      (d = 0 → dirOf d = "stayed flat")) ∧
    (days_selected fs = 59 → trendBullet fs firstT lastT = none) := by
  refine ⟨?_, ?_, ?_, ?_⟩
  · by_cases h : days_selected fs ≥ 60 <;>
      cases firstT <;> cases lastT <;> simp [trendBullet, h]
  · intro f l hf hl h
    subst hf; subst hl
    simp [trendBullet, h]
  · intro d
    refine ⟨?_, ?_, ?_⟩ <;> intro hd <;> (simp [dirOf, hd]; try omega)
  · intro h59
    have : ¬days_selected fs ≥ 60 := by omega
    cases firstT <;> cases lastT <;> simp [trendBullet, this]

/-- C6 witness: a 60-day range emits the bullet with direction
"increased" for counts 10 → 20; a 59-day range emits nothing. -/
theorem trend_bullet_witness :
    days_selected fs60 = 60 ∧
    trendBullet fs60 (some 10) (some 20) = some (mkTrendB 10) ∧
    dirOf 10 = "increased" ∧
    days_selected fs59 = 59 ∧
    trendBullet fs59 (some 10) (some 20) = none :=
  ⟨by decide,
   (trend_bullet_spec fs60 (some 10) (some 20)).2.1 10 20 rfl rfl (by decide),
   ((trend_bullet_spec fs60 (some 10) (some 20)).2.2.1 10).1 (by decide),
   by decide,
   (trend_bullet_spec fs59 (some 10) (some 20)).2.2.2 (by decide)⟩

/-! ### C4: when the membership clauses appear -/

theorem le_len_append (n : Nat) (a b : String) (h : n ≤ a.data.length) :
    n ≤ (a ++ b).data.length := by
  rw [String.data_append, List.length_append]
  omega

theorem tag_dateClause (fs : FilterSpec) :
    tagN 13 (dateClause fs) = "ride_date BET".data := by
  unfold dateClause
  rw [tagN_append_left 13 "ride_date BETWEEN DATE('" _ (by decide)]
  decide

theorem tag_riderClause (fs : FilterSpec) :
    tagN 13 (riderClause fs) = "member_casual".data := by
  unfold riderClause
  rw [tagN_append_left 13 "member_casual IN (" _ (by decide)]
  decide

theorem tag_bikeClause (fs : FilterSpec) :
    tagN 13 (bikeClause fs) = "rideable_type".data := by
  unfold bikeClause
  rw [tagN_append_left 13 "rideable_type IN (" _ (by decide)]
  decide

/-- C4 (amended): a rider-type (resp. bike-type) membership clause is
present iff the selection is nonempty — even when the selection equals
the full universe — and when present it is exactly the clause listing
the selected values; an empty selection contributes no clause. -/
theorem membership_clause_iff (fs : FilterSpec) :
    ((∃ c ∈ where_clauses fs, tagN 13 c = "member_casual".data) ↔
      fs.rider_filter ≠ []) ∧
    ((∃ c ∈ where_clauses fs, tagN 13 c = "rideable_type".data) ↔
      fs.bike_filter ≠ []) ∧
    (fs.rider_filter ≠ [] → riderClause fs ∈ where_clauses fs) ∧
    (fs.bike_filter ≠ [] → bikeClause fs ∈ where_clauses fs) ∧
    (fs.rider_filter = [] → fs.bike_filter = [] →
      where_clauses fs = [dateClause fs]) := by
  have hd := tag_dateClause fs
  have hr := tag_riderClause fs
  have hb := tag_bikeClause fs
  have hne1 : ("ride_date BET".data : List Char) ≠ "member_casual".data := by decide
  have hne2 : ("ride_date BET".data : List Char) ≠ "rideable_type".data := by decide
  have hne3 : ("member_casual".data : List Char) ≠ "rideable_type".data := by decide
  have hne4 : ("rideable_type".data : List Char) ≠ "member_casual".data := by decide
  unfold where_clauses
  by_cases h1 : fs.rider_filter.isEmpty <;> by_cases h2 : fs.bike_filter.isEmpty <;>
    simp_all [List.isEmpty_iff]

/-- C4 witness: one selected rider value emits exactly its clause; empty
selections leave only the date clause. -/
theorem membership_clause_witness :
    riderClause fsSel ∈ where_clauses fsSel ∧
    where_clauses fsNoSel = [dateClause fsNoSel] :=
  ⟨(membership_clause_iff fsSel).2.2.1 (by decide),
   (membership_clause_iff fsNoSel).2.2.2.2 (by decide) (by decide)⟩

set_option maxRecDepth 4000 in
/-- C4 counterexample: selecting the full universe (the sidebar default)
still emits a rider membership clause, where the claim requires it to be
omitted. -/
theorem full_universe_clause_emitted :
    fsFull.rider_filter = fsFull.rider_types ∧
    where_clauses fsFull =
      [dateClause fsFull, "member_casual IN ('casual', 'member')"] := by
  decide

/-! ### C2: which queries compose the shared predicate -/

/-- C2 (amended): the KPI, rider-type, time-series, bike-mix, weekday,
top-stations and insight-base queries all embed the shared `where_sql`
predicate, but the month-over-month and trend-bounds queries embed only
the date-range clause and are entirely unaffected by the categorical
selections. -/
theorem shared_predicate_composition (fs : FilterSpec) :
    occursIn (where_sql fs) (sql_kpis fs) ∧
    occursIn (where_sql fs) (sql_cat fs) ∧
    occursIn (where_sql fs) (sql_ts fs) ∧
    occursIn (where_sql fs) (sql_mix fs) ∧
    occursIn (where_sql fs) (sql_weekday fs) ∧
    occursIn (where_sql fs) (sql_top_stations fs) ∧
    occursIn (where_sql fs) (sql_insights fs) ∧
    occursIn (dateClause fs) (sql_mom fs) ∧
    occursIn (dateClause fs) (sql_trend fs) ∧
    sql_mom fs = sql_mom (noCatFilters fs) ∧
    sql_trend fs = sql_trend (noCatFilters fs) := by
  refine ⟨?_, ?_, ?_, ?_, ?_, ?_, ?_, ?_, ?_, rfl, rfl⟩
  · unfold sql_kpis
    repeat first
      | exact occursIn_appendR _ (occursIn_self _)
      | apply occursIn_appendL
  · unfold sql_cat
    repeat first
      | exact occursIn_appendR _ (occursIn_self _)
      | apply occursIn_appendL
  · unfold sql_ts
    split <;>
      repeat first
        | exact occursIn_appendR _ (occursIn_self _)
        | apply occursIn_appendL
  · unfold sql_mix
    repeat first
      | exact occursIn_appendR _ (occursIn_self _)
      | apply occursIn_appendL
  · unfold sql_weekday
    repeat first
      | exact occursIn_appendR _ (occursIn_self _)
      | apply occursIn_appendL
  · unfold sql_top_stations
    repeat first
      | exact occursIn_appendR _ (occursIn_self _)
      | apply occursIn_appendL
  · unfold sql_insights
    repeat first
      | exact occursIn_appendR _ (occursIn_self _)
      | apply occursIn_appendL
  · unfold sql_mom
    repeat first
      | exact occursIn_appendR _ (occursIn_self _)
      | apply occursIn_appendL
  · unfold sql_trend
    repeat first
      | exact occursIn_appendR _ (occursIn_self _)
      | apply occursIn_appendL

/-- C2 counterexample: with the rider selection `["casual"]`, the KPI
query text changes but the month-over-month and trend query texts are
byte-identical to the unfiltered ones — those two views do not apply the
rider-type membership clause the claim asserts they share. -/
theorem mom_ignores_filters_concrete :
    fsSel.rider_filter ≠ fsNoSel.rider_filter ∧
    sql_mom fsSel = sql_mom fsNoSel ∧
    sql_trend fsSel = sql_trend fsNoSel ∧
    sql_kpis fsSel ≠ sql_kpis fsNoSel := by
  set_option maxRecDepth 8000 in decide

/-! ### C9: bullet order and gating -/

theorem tag_mkTotal (n : Int) : tagN 2 (mkTotal n) = "To".data := by
  unfold mkTotal
  rw [tagN_append_left 2 "Total trips in selected period: **" _ (by decide)]
  decide

theorem tag_mkAvg (v : Rat) : tagN 2 (mkAvg v) = "Av".data := by
  unfold mkAvg
  rw [tagN_append_left 2 "Average trip duration: **" _ (by decide)]
  decide

theorem tag_mkRider (m : Rat) : tagN 2 (mkRider m) = "Ri".data := by
  unfold mkRider
  rw [tagN_append_left 2 "Rider mix: **" _ (by decide)]
  decide

theorem tag_mkWeekend (w : Rat) : tagN 2 (mkWeekend w) = "Tr".data := by
  unfold mkWeekend
  rw [tagN_append_left 2 "Trip timing: **" _ (by decide)]
  decide

theorem tag_mkTop (ty : String) (n : Int) : tagN 2 (mkTop ty n) = "Mo".data := by
  unfold mkTop
  rw [tagN_append_left 2 "Most used bike type: **" _ (by decide)]
  decide

theorem tag_mkTrendB (delta : Int) : tagN 2 (mkTrendB delta) = "Ov".data := by
  unfold mkTrendB
  rw [tagN_append_left 2 "Overall trend: trips **" _ (by decide)]
  decide

theorem tags_optBullet (f : Rat → String) (t : List Char)
    (ht : ∀ v, tagN 2 (f v) = t) (o : Option Rat) :
    (optBullet f o).map (tagN 2) = if o.isSome then [t] else [] := by
  cases o <;> simp [optBullet, ht]

theorem tags_topBullet (ty : Option String) (tn : Option Int) :
    (topBullet ty tn).map (tagN 2) =
      if ty.isSome ∧ tn.isSome then ["Mo".data] else [] := by
  cases ty <;> cases tn <;> simp [topBullet, tag_mkTop]

theorem tags_trendBullet (fs : FilterSpec) (f l : Option Int) :
    (trendBullet fs f l).toList.map (tagN 2) =
      if days_selected fs ≥ 60 ∧ f.isSome ∧ l.isSome then ["Ov".data] else [] := by
  by_cases h : days_selected fs ≥ 60 <;> cases f <;> cases l <;>
    simp [trendBullet, h, tag_mkTrendB]

/-- The (two-character) template tags of one render's bullet list, in
order: the mandatory total tag, then one optional tag per gated bullet. -/
theorem tags_of_bullets (fs : FilterSpec) (d : Derived) (firstT lastT : Option Int) :
    (bullets fs d firstT lastT).map (tagN 2) =
      ["To".data] ++
        (if d.avg_dur_min.isSome then ["Av".data] else []) ++
        (if d.member_share.isSome then ["Ri".data] else []) ++
        (if d.weekend_share.isSome then ["Tr".data] else []) ++
        (if d.top_bike_type.isSome ∧ d.top_bike_trips.isSome then ["Mo".data] else []) ++
        (if days_selected fs ≥ 60 ∧ firstT.isSome ∧ lastT.isSome then ["Ov".data] else []) := by
  unfold bullets baseBullets
  simp only [List.map_append, List.map_cons, List.map_nil, tag_mkTotal,
    tags_optBullet mkAvg _ tag_mkAvg, tags_optBullet mkRider _ tag_mkRider,
    tags_optBullet mkWeekend _ tag_mkWeekend, tags_topBullet, tags_trendBullet]

/-- C9: the bullet list always starts with the total-trips bullet; the
sequence of bullet templates is a subsequence of the fixed order (total,
average duration, rider mix, weekend timing, top bike type, trend), so no
permutation is possible; and each gated template appears iff its gating
inputs are defined. -/
theorem bullets_fixed_order (fs : FilterSpec) (d : Derived) (firstT lastT : Option Int) :
    ((bullets fs d firstT lastT).head? = some (mkTotal d.trips)) ∧
    ((bullets fs d firstT lastT).map (tagN 2)).Sublist bulletTags ∧
    ((∃ s ∈ bullets fs d firstT lastT, tagN 2 s = "Av".data) ↔ d.avg_dur_min.isSome) ∧
    ((∃ s ∈ bullets fs d firstT lastT, tagN 2 s = "Ri".data) ↔ d.member_share.isSome) ∧
    ((∃ s ∈ bullets fs d firstT lastT, tagN 2 s = "Tr".data) ↔ d.weekend_share.isSome) ∧
    ((∃ s ∈ bullets fs d firstT lastT, tagN 2 s = "Mo".data) ↔
      (d.top_bike_type.isSome ∧ d.top_bike_trips.isSome)) ∧
    ((∃ s ∈ bullets fs d firstT lastT, tagN 2 s = "Ov".data) ↔
      (days_selected fs ≥ 60 ∧ firstT.isSome ∧ lastT.isSome)) := by
  have hm := tags_of_bullets fs d firstT lastT
  have hmem : ∀ t : List Char,
      (∃ s ∈ bullets fs d firstT lastT, tagN 2 s = t) ↔
        t ∈ (bullets fs d firstT lastT).map (tagN 2) := by
    intro t
    constructor
    · rintro ⟨s, hs, rfl⟩
      exact List.mem_map_of_mem _ hs
    · intro ht
      obtain ⟨s, hs, he⟩ := List.mem_map.mp ht
      exact ⟨s, hs, he⟩
  have hsplit : ∀ (c : Prop) [Decidable c] (x : List Char),
      (if c then [x] else []).Sublist [x] := by
    intro c _ x
    split <;> simp
  refine ⟨rfl, ?_, ?_, ?_, ?_, ?_, ?_⟩
  · rw [hm]
    exact ((((((List.Sublist.refl ["To".data]).append (hsplit _ _)).append
      (hsplit _ _)).append (hsplit _ _)).append (hsplit _ _)).append (hsplit _ _))
  all_goals
    rw [hmem, hm]
    by_cases c1 : d.avg_dur_min.isSome <;>
      by_cases c2 : d.member_share.isSome <;>
        by_cases c3 : d.weekend_share.isSome <;>
          by_cases c4 : d.top_bike_type.isSome ∧ d.top_bike_trips.isSome <;>
            by_cases c5 : days_selected fs ≥ 60 ∧ firstT.isSome ∧ lastT.isSome <;>
              (simp [c1, c2, c3, c4, c5]; try decide)

/-! ### C3: what a single failing query does to the render -/

/-- C3 (amended): when the top-stations query raises and every earlier
section succeeded, the render stops at the top-stations section — the six
sections before it are handed to the sink, the top-stations table and the
insights section are not rendered at all, and the exception escapes the
script. -/
theorem backend_failure_aborts_render (fs : FilterSpec) (b : Backend) (e : String)
    (v1 v2 v3 v4 v5 v6 : View)
    (h0 : ¬days_selected fs < 0)
    (h1 : stageKpi b = .ok v1) (h2 : stageMom b = .ok v2)
    (h3 : stageCat b = .ok v3) (h4 : stageTs fs b = .ok v4)
    (h5 : stageMix b = .ok v5) (h6 : stageWeekday b = .ok v6)
    (h7 : b.top = .error e) :
    renderApp fs b = .failed [v1, v2, v3, v4, v5, v6] e := by
  have htop : stageTop b = .error e := by
    unfold stageTop
    rw [h7]
    rfl
  simp [renderApp, h0, runStages, h1, h2, h3, h4, h5, h6, htop]

set_option maxRecDepth 8000 in
/-- C3 witness: the amended theorem applied to the concrete backend `b0`,
which fails only on the top-stations query. -/
theorem backend_failure_witness :
    renderApp fs0 b0 = .failed [v1k, v2k, v3k, v4k, v5k, v6k] "boom" :=
  backend_failure_aborts_render fs0 b0 "boom" v1k v2k v3k v4k v5k v6k
    (by decide) rfl rfl rfl rfl rfl rfl rfl

set_option maxRecDepth 8000 in
/-- C3 counterexample: with a backend failing only on the top-stations
query, the render is a `failed` outcome — the exception escapes, and the
sink receives neither an empty "Top Start Stations" table nor the
insights section, contradicting the claimed per-view degradation. -/
theorem top_station_failure_escapes :
    renderOk (renderApp fs0 b0) = false ∧
    renderApp fs0 b0 = .failed [v1k, v2k, v3k, v4k, v5k, v6k] "boom" ∧
    (∀ v ∈ [v1k, v2k, v3k, v4k, v5k, v6k],
      v.name ≠ "Top Start Stations" ∧ v.name ≠ "insights") := by
  refine ⟨rfl, rfl, by decide⟩

/-! ### C5: the zero-trip render -/

set_option maxRecDepth 8000 in
/-- C5 (refuting the claimed no-crash behaviour): on a zero-matching-trips
render the backend returns a KPI row with NULL shares and NULL average
duration; the KPI section then raises a TypeError inside
`float(kpi["member_share"])`, so the script crashes before any "no data"
state is shown (and the empty insights result would raise IndexError at
`.iloc[0]`); only the empty-frame checks of the table views (e.g.
`df_cat`) behave as the claim describes. -/
theorem zero_trip_kpi_crash :
    bZero.kpis = .ok [(⟨0, none, none, none, none⟩ : KpiRow)] ∧
    renderApp fsZero bZero = .failed [] "TypeError" ∧
    renderOk (renderApp fsZero bZero) = false ∧
    stageCat bZero = .ok ⟨"cat", ["No data for the selected filters."]⟩ ∧
    @iloc0 InsRow [] = .error "IndexError" := by
  refine ⟨rfl, rfl, rfl, rfl, rfl⟩
